import Mathlib

/-!
Verification of the feldspar REPL host functions (src/main.rs) against its
specification.  The Rust source is shallowly embedded: the process-wide
`MODEL_CONFIG` cell becomes explicit state passing of a `ModelConfig` value,
the genai client call is abstracted as a function argument from the built
service target and request to an `Except`-typed outcome, and the message
construction, adapter resolution, configuration update, environment lookup
and tool rendering are translated function by function.
-/

namespace Feldspar

/-- Embedding of genai `AdapterKind` (the variants used by main.rs). -/
inductive AdapterKind where
  | OpenAI
  | Anthropic
  | Ollama
  | Gemini
  | Groq
  | Cohere
deriving DecidableEq, Repr

/-- Embedding of `struct ModelConfig` (main.rs lines 14-19). -/
structure ModelConfig where
  url : String
  token : String
  model : String
  adapter : String
deriving DecidableEq, Repr

/-- Embedding of `impl Default for ModelConfig` (main.rs lines 89-98). -/
def ModelConfig.defaultConfig : ModelConfig :=
  { url := "https://api.openai.com/v1"
    token := ""
    model := "gpt-4o-mini"
    adapter := "openai" }

/-- Embedding of `adapter_from_string` (main.rs lines 108-118).  The Rust
`match` on `&str` literals is rendered as the equivalent chain of
case-sensitive equality tests with the same default arm. -/
def adapter_from_string (s : String) : AdapterKind :=
  if s = "openai" then AdapterKind.OpenAI
  else if s = "anthropic" then AdapterKind.Anthropic
  else if s = "ollama" then AdapterKind.Ollama
  else if s = "gemini" then AdapterKind.Gemini
  else if s = "groq" then AdapterKind.Groq
  else if s = "cohere" then AdapterKind.Cohere
  else AdapterKind.OpenAI

/-- Role of a chat message (genai `ChatMessage` constructors used). -/
inductive ChatRole where
  | user
  | assistant
  | system
deriving DecidableEq, Repr

/-- A role-tagged chat message. -/
structure ChatMessage where
  role : ChatRole
  content : String
deriving DecidableEq, Repr

/-- Embedding of `ChatMessage::user`. -/
def ChatMessage.user (c : String) : ChatMessage := ⟨ChatRole.user, c⟩

/-- Embedding of `ChatMessage::assistant`. -/
def ChatMessage.assistant (c : String) : ChatMessage := ⟨ChatRole.assistant, c⟩

/-- Embedding of `ChatMessage::system`. -/
def ChatMessage.system (c : String) : ChatMessage := ⟨ChatRole.system, c⟩

/-- Embedding of the `filter_map` closure in `prompt` (main.rs lines 154-167):
the source first tests `entry.len() >= 2` and then reads `entry[0]` and
`entry[1]`, which is the cons-cons pattern below; the `match role.as_str()`
becomes the equality chain. -/
def entryToMessage (entry : List String) : Option ChatMessage :=
  match entry with
  | role :: content :: _ =>
    if role = "user" then some (ChatMessage.user content)
    else if role = "assistant" then some (ChatMessage.assistant content)
    else if role = "system" then some (ChatMessage.system content)
    else none
  | _ => none

/-- Embedding of the message construction in `prompt` (main.rs lines
152-171): filter-map the history, then push the new user prompt. -/
def buildMessages (history : List (List String)) (user_prompt : String) :
    List ChatMessage :=
  history.filterMap entryToMessage ++ [ChatMessage.user user_prompt]

/-- Characterisation helper: a history entry is valid when it has at least
two elements and a recognised role, i.e. exactly when the source's
filter-map closure keeps it. -/
def validEntry (entry : List String) : Bool :=
  match entry with
  | role :: _ :: _ =>
    if role = "user" then true
    else if role = "assistant" then true
    else if role = "system" then true
    else false
  | _ => false

/-- Characterisation helper: the turn a valid history entry is translated
into (role from element 0, content from element 1; the final default arm is
never reached on valid entries). -/
def validTurn (entry : List String) : ChatMessage :=
  match entry with
  | role :: content :: _ =>
    if role = "user" then ChatMessage.user content
    else if role = "assistant" then ChatMessage.assistant content
    else if role = "system" then ChatMessage.system content
    else ChatMessage.user content
  | _ => ChatMessage.user ""

/-- Embedding of genai `ServiceTarget` as resolved by the resolver closure in
`prompt` (main.rs lines 136-143): endpoint from the snapshotted url, auth
from the snapshotted token, model identity = (adapter kind, model name). -/
structure ServiceTarget where
  endpoint : String
  auth : String
  modelAdapter : AdapterKind
  modelName : String
deriving DecidableEq, Repr

/-- Embedding of a genai chat request: the ordered list of messages. -/
structure ChatRequest where
  messages : List ChatMessage
deriving DecidableEq, Repr

/-- Embedding of a successful genai chat response, reduced to what `prompt`
reads from it: `content_text_as_str()` yields either some text or nothing. -/
structure ChatResponse where
  content_text : Option String
deriving DecidableEq, Repr

/-- The service target `prompt` resolves from its configuration snapshot
(main.rs lines 123-147 and 175): url, token and adapter kind come from the
snapshot, the model name is the snapshotted model passed to `exec_chat`. -/
def resolveTarget (cfg : ModelConfig) : ServiceTarget :=
  { endpoint := cfg.url
    auth := cfg.token
    modelAdapter := adapter_from_string cfg.adapter
    modelName := cfg.model }

/-- Embedding of `prompt` (main.rs lines 122-184).  The configuration cell is
passed in explicitly and returned unchanged (the source only clones it); the
network call `client.exec_chat` is abstracted as the `execChat` argument,
whose single `Err` channel carries the rendered error message. -/
def prompt (cfg : ModelConfig) (history : List (List String))
    (user_prompt : String)
    (execChat : ServiceTarget → ChatRequest → Except String ChatResponse) :
    String × ModelConfig :=
  let target := resolveTarget cfg
  let chat_req : ChatRequest := ⟨buildMessages history user_prompt⟩
  let result :=
    match execChat target chat_req with
    | Except.ok response => response.content_text.getD "No response"
    | Except.error e => "Error: " ++ e
  (result, cfg)

/-- Embedding of `configure_model` (main.rs lines 186-198): all four fields
of the configuration are replaced by the four arguments (the confirmation
printed to stdout has no effect on the state and is not modelled). -/
def configure_model (cfg : ModelConfig) (url token model adapter : String) :
    ModelConfig :=
  { url := url, token := token, model := model, adapter := adapter }

/-- The configuration states observable around a `configure_model` call.  In
the source the four field writes happen under a single `RefCell::borrow_mut`
on a thread-local cell, so no reader can observe a state between the writes
(a concurrent borrow would panic, and the cell is thread-local besides): the
observable states are exactly the state before the call and the state after
all four writes. -/
def configure_model_observable (cfg : ModelConfig)
    (url token model adapter : String) : List ModelConfig :=
  [cfg, configure_model cfg url token model adapter]

/-- Outcome of `std::env::var` as `lookup_env` consumes it: the variable is
set to valid unicode text, unset (`VarError::NotPresent`), or set to data
that is not valid unicode (`VarError::NotUnicode`). -/
inductive EnvValue where
  | val (s : String)
  | notPresent
  | notUnicode
deriving DecidableEq, Repr

/-- Embedding of `lookup_env` (main.rs lines 200-205): `Ok` with the value,
otherwise `Err` with the rendered `VarError` message (the std displays shown
here; the not-unicode rendering also appends the offending data, which the
embedding leaves out as it is not representable as a `String`). -/
def lookup_env (env : String → EnvValue) (v : String) : Except String String :=
  match env v with
  | EnvValue.val s => Except.ok s
  | EnvValue.notPresent => Except.error "environment variable not found"
  | EnvValue.notUnicode => Except.error "environment variable was not valid unicode"

/-- Embedding of `enum ToolSchema` (main.rs lines 21-26). -/
inductive ToolSchema where
  | Number
  | Str
  | Bool
deriving DecidableEq, Repr

/-- Embedding of `impl Display for ToolSchema` (main.rs lines 28-36). -/
def ToolSchema.display : ToolSchema → String
  | ToolSchema.Number => "<number>"
  | ToolSchema.Str => "<string>"
  | ToolSchema.Bool => "<bool>"

/-- Embedding of `struct Tool` (main.rs lines 38-44). -/
structure Tool where
  name : String
  description : String
  schema : List (String × ToolSchema)
  handler : String
deriving DecidableEq, Repr

/-- One formatted schema line as `Tool::describe` computes it (main.rs line
67): an opening brace, the quoted parameter name, a colon, the type tag
display, a space, a closing brace, a comma and a newline. -/
def prettySchemaLine (k : String) (t : ToolSchema) : String :=
  "\x7b\"" ++ k ++ "\": " ++ t.display ++ " \x7d,\n"

/-- The `pretty_schema` accumulator of `Tool::describe` (main.rs lines
65-68).  The source computes this string and then never uses it. -/
def prettySchema (schema : List (String × ToolSchema)) : String :=
  schema.foldl (fun acc kt => acc ++ prettySchemaLine kt.1 kt.2) ""

/-- Embedding of `Tool::describe` (main.rs lines 61-72), reproducing the
source exactly: the Schema block re-emits the description (not the computed
`prettySchema`), and the Description line is emitted twice. -/
def Tool.describe (t : Tool) : String :=
  "Name: " ++ t.name ++ "\n" ++
  ("Description: " ++ t.description ++ "\n" ++
  ("Schema: [\n " ++ t.description ++ "\n]\n" ++
  ("Description: " ++ t.description ++ "\n")))

/-- A history entry is kept by the filter-map closure exactly when it is
valid, and then yields the turn built from its first two elements. -/
theorem entryToMessage_eq_validTurn (e : List String) :
    entryToMessage e = if validEntry e then some (validTurn e) else none := by
  match e with
  | [] => rfl
  | [_] => rfl
  | role :: content :: rest =>
    simp only [entryToMessage, validEntry, validTurn]
    split_ifs <;> simp_all

/-- C1: every history entry with fewer than 2 elements is excluded from the
constructed request, the remaining valid entries are translated in their
original order, the new user message is appended as the final turn, and the
number of turns equals the count of valid entries plus one. -/
theorem prompt_request_shape (history : List (List String)) (msg : String) :
    (∀ e : List String, e.length < 2 → entryToMessage e = none) ∧
    buildMessages history msg =
      (history.filter validEntry).map validTurn ++ [ChatMessage.user msg] ∧
    (buildMessages history msg).length = history.countP validEntry + 1 := by
  have hshort : ∀ e : List String, e.length < 2 → entryToMessage e = none := by
    intro e he
    cases e with
    | nil => rfl
    | cons a t =>
      cases t with
      | nil => rfl
      | cons b t2 => exact absurd he (by simp)
  have hmap : history.filterMap entryToMessage =
      (history.filter validEntry).map validTurn := by
    induction history with
    | nil => rfl
    | cons e t ih =>
      rw [List.filterMap_cons, List.filter_cons, entryToMessage_eq_validTurn e]
      cases hv : validEntry e <;> simp [hv, ih]
  refine ⟨hshort, ?_, ?_⟩
  · rw [buildMessages, hmap]
  · rw [buildMessages, List.length_append, hmap, List.length_map,
      ← List.countP_eq_length_filter]
    rfl

/-- C2: a history entry with at least 2 elements whose first element is
user, assistant or system becomes a turn with exactly that role and the
second element as content; any other first element makes the entry silently
dropped. -/
theorem entry_role_translation (role content : String) (rest : List String) :
    (role = "user" →
      entryToMessage (role :: content :: rest) =
        some ⟨ChatRole.user, content⟩) ∧
    (role = "assistant" →
      entryToMessage (role :: content :: rest) =
        some ⟨ChatRole.assistant, content⟩) ∧
    (role = "system" →
      entryToMessage (role :: content :: rest) =
        some ⟨ChatRole.system, content⟩) ∧
    (role ≠ "user" → role ≠ "assistant" → role ≠ "system" →
      entryToMessage (role :: content :: rest) = none) := by
  refine ⟨?_, ?_, ?_, ?_⟩
  · intro h; subst h; rfl
  · intro h; subst h; rfl
  · intro h; subst h; rfl
  · intro h1 h2 h3
    simp [entryToMessage, h1, h2, h3]

/-- C2 witness: concrete instances of the four translation cases. -/
theorem entry_role_translation_witness :
    entryToMessage ["user", "a"] = some ⟨ChatRole.user, "a"⟩ ∧
    entryToMessage ["assistant", "b"] = some ⟨ChatRole.assistant, "b"⟩ ∧
    entryToMessage ["system", "c"] = some ⟨ChatRole.system, "c"⟩ ∧
    entryToMessage ["bogus", "d"] = none :=
  ⟨(entry_role_translation "user" "a" []).1 rfl,
   (entry_role_translation "assistant" "b" []).2.1 rfl,
   (entry_role_translation "system" "c" []).2.2.1 rfl,
   (entry_role_translation "bogus" "d" []).2.2.2
     (by decide) (by decide) (by decide)⟩

/-- C3: prompt always returns a plain string; on a failed client call the
string is the error message prefixed with an error marker, on success it is
the extracted text, or a fixed fallback when the response carries none. -/
theorem prompt_string_result (cfg : ModelConfig)
    (history : List (List String)) (msg : String)
    (execChat : ServiceTarget → ChatRequest → Except String ChatResponse) :
    (∀ e : String,
      execChat (resolveTarget cfg) ⟨buildMessages history msg⟩ =
        Except.error e →
      (prompt cfg history msg execChat).1 = "Error: " ++ e) ∧
    (∀ t : String,
      execChat (resolveTarget cfg) ⟨buildMessages history msg⟩ =
        Except.ok ⟨some t⟩ →
      (prompt cfg history msg execChat).1 = t) ∧
    (execChat (resolveTarget cfg) ⟨buildMessages history msg⟩ =
        Except.ok ⟨none⟩ →
      (prompt cfg history msg execChat).1 = "No response") := by
  refine ⟨?_, ?_, ?_⟩
  · intro e h; simp [prompt, h]
  · intro t h; simp [prompt, h]
  · intro h; simp [prompt, h]

/-- C4: adapter-name resolution is total, maps the six recognised names
case-sensitively to their adapter kinds, maps every other string to the
OpenAI kind, and a configuration stored by configure_model is resolved by
prompt through exactly this rule. -/
theorem adapter_resolution_total :
    adapter_from_string "openai" = AdapterKind.OpenAI ∧
    adapter_from_string "anthropic" = AdapterKind.Anthropic ∧
    adapter_from_string "ollama" = AdapterKind.Ollama ∧
    adapter_from_string "gemini" = AdapterKind.Gemini ∧
    adapter_from_string "groq" = AdapterKind.Groq ∧
    adapter_from_string "cohere" = AdapterKind.Cohere ∧
    (∀ s : String,
      s ≠ "openai" → s ≠ "anthropic" → s ≠ "ollama" → s ≠ "gemini" →
      s ≠ "groq" → s ≠ "cohere" →
      adapter_from_string s = AdapterKind.OpenAI) ∧
    (∀ (cfg : ModelConfig) (u t m a : String),
      resolveTarget (configure_model cfg u t m a) =
        ⟨u, t, adapter_from_string a, m⟩) := by
  refine ⟨rfl, rfl, rfl, rfl, rfl, rfl, ?_, ?_⟩
  · intro s h1 h2 h3 h4 h5 h6
    simp [adapter_from_string, h1, h2, h3, h4, h5, h6]
  · intro cfg u t m a
    rfl

/-- C5: configure_model always succeeds, replaces all four configuration
fields with its four arguments, and every observable configuration state
around the call is either the complete old state or the complete new state
(the four writes happen under one exclusive borrow). -/
theorem configure_model_replaces_all_fields (cfg : ModelConfig)
    (url token model adapter : String) :
    configure_model cfg url token model adapter =
      ⟨url, token, model, adapter⟩ ∧
    (∀ s ∈ configure_model_observable cfg url token model adapter,
      s = cfg ∨ s = ⟨url, token, model, adapter⟩) := by
  refine ⟨rfl, ?_⟩
  intro s hs
  simp only [configure_model_observable, configure_model,
    List.mem_cons, List.mem_singleton, List.not_mem_nil, or_false] at hs
  exact hs

/-- C6: prompt does not mutate the model configuration; the configuration
after the call is the configuration before it. -/
theorem prompt_preserves_config (cfg : ModelConfig)
    (history : List (List String)) (msg : String)
    (execChat : ServiceTarget → ChatRequest → Except String ChatResponse) :
    (prompt cfg history msg execChat).2 = cfg := rfl

/-- C7: lookup_env is an explicit two-outcome result: success carries
exactly the value of a set, valid variable, and failure carries a
description when the variable is unset or not valid textual data. -/
theorem lookup_env_two_outcomes (env : String → EnvValue) (v : String) :
    (∀ s : String, env v = EnvValue.val s →
      lookup_env env v = Except.ok s) ∧
    (env v = EnvValue.notPresent →
      lookup_env env v = Except.error "environment variable not found") ∧
    (env v = EnvValue.notUnicode →
      lookup_env env v =
        Except.error "environment variable was not valid unicode") := by
  refine ⟨?_, ?_, ?_⟩
  · intro s h; simp [lookup_env, h]
  · intro h; simp [lookup_env, h]
  · intro h; simp [lookup_env, h]

/-- C8: at a concrete tool the rendering re-emits the description inside the
Schema block and duplicates the Description line, while the formatted
per-parameter schema line the claim requires appears nowhere in the
output. -/
theorem describe_schema_block_defect :
    Tool.describe ⟨"t", "d", [("x", ToolSchema.Number)], "h"⟩ =
      "Name: t\nDescription: d\nSchema: [\n d\n]\nDescription: d\n" ∧
    prettySchema [("x", ToolSchema.Number)] = "\x7b\"x\": <number> \x7d,\n" ∧
    ¬ (∃ a b : List Char,
        (Tool.describe ⟨"t", "d", [("x", ToolSchema.Number)], "h"⟩).data =
          a ++ (prettySchema [("x", ToolSchema.Number)]).data ++ b) := by
  refine ⟨rfl, rfl, ?_⟩
  rintro ⟨a, b, hab⟩
  have hconcrete :
      (Tool.describe ⟨"t", "d", [("x", ToolSchema.Number)], "h"⟩).data =
        ("Name: t\nDescription: d\nSchema: [\n d\n]\nDescription: d\n" :
          String).data := rfl
  have hline : '\x7b' ∈ (prettySchema [("x", ToolSchema.Number)]).data := by
    decide
  have hmem :
      '\x7b' ∈ ("Name: t\nDescription: d\nSchema: [\n d\n]\nDescription: d\n" :
        String).data := by
    rw [← hconcrete, hab]
    exact List.mem_append_left _ (List.mem_append_right _ hline)
  revert hmem
  decide

/-- C9: the rendering of every tool descriptor contains the name string and
the description string verbatim. -/
theorem describe_contains_name_and_description (t : Tool) :
    (∃ a b : List Char,
      (Tool.describe t).data = a ++ t.name.data ++ b) ∧
    (∃ a b : List Char,
      (Tool.describe t).data = a ++ t.description.data ++ b) := by
  constructor
  · refine ⟨("Name: " : String).data,
      ("\n" : String).data ++ (("Description: " : String).data ++
        (t.description.data ++ (("\n" : String).data ++
        (("Schema: [\n " : String).data ++ (t.description.data ++
        (("\n]\n" : String).data ++ (("Description: " : String).data ++
        (t.description.data ++ ("\n" : String).data)))))))), ?_⟩
    simp [Tool.describe, List.append_assoc]
  · refine ⟨("Name: " : String).data ++ (t.name.data ++
      (("\n" : String).data ++ ("Description: " : String).data)),
      ("\n" : String).data ++
        (("Schema: [\n " : String).data ++ (t.description.data ++
        (("\n]\n" : String).data ++ (("Description: " : String).data ++
        (t.description.data ++ ("\n" : String).data))))), ?_⟩
    simp [Tool.describe, List.append_assoc]

/-- C10: elements of a history entry beyond the first two never influence
the translated turn, the constructed request or its turn count. -/
theorem entry_extra_elements_ignored (role content : String)
    (rest rest' : List String) (pre post : List (List String))
    (msg : String) :
    entryToMessage (role :: content :: rest) =
      entryToMessage (role :: content :: rest') ∧
    buildMessages (pre ++ (role :: content :: rest) :: post) msg =
      buildMessages (pre ++ [role, content] :: post) msg := by
  have h2 : entryToMessage (role :: content :: rest) =
      entryToMessage [role, content] := rfl
  refine ⟨rfl, ?_⟩
  rw [buildMessages, buildMessages, List.filterMap_append,
    List.filterMap_append, List.filterMap_cons, List.filterMap_cons, h2]

end Feldspar
